import Mathlib

/-!
Verification development for a Python ETL pipeline over three tabular data
sources (job postings, investment programs, skill profiles).  The embedding
follows the source modules: limpieza (cleaning), warehouse (consolidation
and derived metrics), data_mining (four-way analysis orchestration) and
validaciones (validation reporting).  Pandas dataframes are embedded as
explicit lists, floats as exact rationals, NaN as Option.none, and Python
exceptions as Except values.
-/

namespace ETL

/-- A pandas cell value: strings, numbers (exact rationals standing in for
floats), and timestamps (year and month standing in for pd.Timestamp). -/
inductive Val where
  | s (x : String)
  | q (x : ℚ)
  | ts (year month : Nat)
deriving DecidableEq, Repr

/-- A nullable cell; none models NaN / NaT / missing. -/
abbrev Cell := Option Val

/-- Rendering of a value the way Python str would, abstractly: strings are
kept; the printed form of numbers and timestamps is canonical rather than
byte-exact, which no verified claim depends on. -/
def valText (v : Val) : String :=
  match v with
  | .s x => x
  | .q x => toString x
  | .ts y m => toString y ++ "-" ++ toString m

/-- Python str of a cell; str applied to NaN yields the literal text nan. -/
def cellText (c : Cell) : String :=
  match c with
  | none => "nan"
  | some v => valText v

/-- The numeric content of a value, if any. -/
def valQ (v : Val) : Option ℚ :=
  match v with
  | .q x => some x
  | _ => none

/-- The numeric content of a cell, if any. -/
def cellQ (c : Cell) : Option ℚ := c.bind valQ

/-- Helper for Python str.title: uppercase each letter that starts a run of
letters, lowercase the other letters (ASCII view). -/
def titleChars : Bool → List Char → List Char
  | _, [] => []
  | prevAlpha, c :: cs =>
    if c.isAlpha then
      (if prevAlpha then c.toLower else c.toUpper) :: titleChars true cs
    else
      c :: titleChars false cs

/-- Python str.title (ASCII view). -/
def titleCase (s : String) : String := String.mk (titleChars false s.data)

/-- Helper for the regex substitution replacing each run of whitespace by a
single space. -/
def collapseChars : Bool → List Char → List Char
  | _, [] => []
  | prevWs, c :: cs =>
    if c.isWhitespace then
      if prevWs then collapseChars true cs else ' ' :: collapseChars true cs
    else
      c :: collapseChars false cs

/-- Replace every maximal run of whitespace by a single space. -/
def collapseWs (s : String) : String := String.mk (collapseChars false s.data)

/-- First index of an element satisfying p, as the source uses positional
column lookup. -/
def findIdxOf (p : α → Bool) : List α → Option Nat
  | [] => none
  | a :: as => if p a then some 0 else (findIdxOf p as).map (· + 1)

namespace Warehouse

/-!
Embedding of src/warehouse.py.  A source row is an association list from
column names to nullable cells; an absent key models a column the row does
not carry, which row.get answers with None exactly like a null.
-/

/-- One source dataframe row. -/
abbrev Row := List (String × Cell)

/-- pandas Series.get: the value under a label, None when the label is
absent. -/
def rowGet (r : Row) (c : String) : Cell :=
  match r.lookup c with
  | some v => v
  | none => none

/-- Python membership test on the row labels. -/
def rowHas (r : Row) (c : String) : Bool := (r.lookup c).isSome

/-- Assignment df[c] = v restricted to one row: overwrite the label when
present, append it otherwise. -/
def rowSet (r : Row) (c : String) (v : Cell) : Row :=
  if rowHas r c then
    r.map (fun p => if p.1 = c then (c, v) else p)
  else
    r ++ [(c, v)]

/-- df.drop(columns=[c]) restricted to one row. -/
def rowDrop (r : Row) (c : String) : Row :=
  r.filter (fun p => !(p.1 == c))

/-- warehouse.py standardize_common_columns, per row: the accented country
column is renamed to the canonical one, then every row is stamped with the
source label and the processing timestamp captured once per call. -/
def stdRow (now : Val) (source_type : String) (r0 : Row) : Row :=
  let r1 := if rowHas r0 "país" then rowDrop (rowSet r0 "pais" (rowGet r0 "país")) "país" else r0
  rowSet (rowSet r1 "fuente_datos" (some (.s source_type))) "fecha_procesamiento" (some now)

/-- warehouse.py standardize_common_columns on a whole table. -/
def standardize_common_columns (now : Val) (source_type : String) (df : List Row) : List Row :=
  df.map (stdRow now source_type)

/-- The fixed unified schema of warehouse.py create_unified_schema: all 22
columns of column_order, each nullable; columns with no mapping for a given
source stay at the default none. -/
structure URecord where
  fuente_datos : Cell := none
  fecha_procesamiento : Cell := none
  id_registro : Cell := none
  empresa_organizacion : Cell := none
  cargo_area : Cell := none
  ciudad : Cell := none
  pais : Cell := none
  tecnologia_principal : Cell := none
  framework_herramienta : Cell := none
  nivel_experiencia : Cell := none
  salario_usd : Cell := none
  modalidad_tipo : Cell := none
  fecha_referencia : Cell := none
  anio_referencia : Cell := none
  edad : Cell := none
  anos_experiencia : Cell := none
  nivel_educativo : Cell := none
  certificaciones : Cell := none
  inversion_usd : Cell := none
  participantes : Cell := none
  duracion_meses : Cell := none
  satisfaccion_promedio : Cell := none
deriving DecidableEq, Repr

/-- The per-row mapping of the jobs loop of create_unified_schema. -/
def jobRecord (row : Row) : URecord :=
  { fuente_datos := some (.s "empleos_tech")
    fecha_procesamiento := rowGet row "fecha_procesamiento"
    ciudad := rowGet row "ciudad"
    pais := rowGet row "pais"
    id_registro := rowGet row "id_oferta"
    empresa_organizacion := rowGet row "empresa"
    cargo_area := rowGet row "cargo"
    tecnologia_principal := rowGet row "lenguaje"
    framework_herramienta := rowGet row "framework"
    nivel_experiencia := rowGet row "nivel_seniority"
    salario_usd := rowGet row "salario_anual_usd"
    modalidad_tipo := rowGet row "modalidad"
    fecha_referencia := rowGet row "fecha_publicacion"
    anio_referencia := if rowHas row "fecha_publicacion_year" then rowGet row "fecha_publicacion_year" else none }

/-- The per-row mapping of the investment loop of create_unified_schema. -/
def invRecord (row : Row) : URecord :=
  { fuente_datos := some (.s "inversiones_tech")
    fecha_procesamiento := rowGet row "fecha_procesamiento"
    ciudad := rowGet row "ciudad"
    pais := rowGet row "pais"
    id_registro := rowGet row "id_programa"
    empresa_organizacion := rowGet row "organizacion"
    cargo_area := rowGet row "area_tecnologica"
    inversion_usd := rowGet row "inversion_usd"
    participantes := rowGet row "participantes"
    duracion_meses := rowGet row "duracion_meses"
    satisfaccion_promedio := rowGet row "satisfaccion_promedio"
    anio_referencia := if rowHas row "ano" then rowGet row "ano" else rowGet row "año" }

/-- The per-row mapping of the profiles loop of create_unified_schema. -/
def profRecord (row : Row) : URecord :=
  { fuente_datos := some (.s "perfiles_habilidades")
    fecha_procesamiento := rowGet row "fecha_procesamiento"
    ciudad := rowGet row "ciudad"
    pais := rowGet row "pais"
    id_registro := rowGet row "id_persona"
    edad := rowGet row "edad"
    tecnologia_principal := rowGet row "lenguajes_dominio"
    framework_herramienta := rowGet row "frameworks_dominio"
    certificaciones := rowGet row "certificaciones"
    anos_experiencia := rowGet row "anos_experiencia"
    nivel_educativo := rowGet row "nivel_educativo"
    cargo_area := rowGet row "area_trabajo_actual"
    salario_usd := rowGet row "salario_actual_usd" }

/-- warehouse.py create_unified_schema: standardize each table, then append
one unified record per source row, jobs first, then investment, then
profiles, exactly as the three iterrows loops do. -/
def create_unified_schema (now : Val) (jobs_df investment_df profiles_df : List Row) : List URecord :=
  let jobs_std := standardize_common_columns now "empleos_tech" jobs_df
  let investment_std := standardize_common_columns now "inversiones_tech" investment_df
  let profiles_std := standardize_common_columns now "perfiles_habilidades" profiles_df
  jobs_std.map jobRecord ++ investment_std.map invRecord ++ profiles_std.map profRecord

/-- pandas cut with bins [0, 50000, 75000, 100000, 150000, inf]: intervals
are right-closed and the lowest bound is excluded, so 0 and negative values
fall in no bin and get a null category. -/
def rangoSalarioCut (v : ℚ) : Option String :=
  if 0 < v ∧ v ≤ 50000 then some "<50K"
  else if 50000 < v ∧ v ≤ 75000 then some "50K-75K"
  else if 75000 < v ∧ v ≤ 100000 then some "75K-100K"
  else if 100000 < v ∧ v ≤ 150000 then some "100K-150K"
  else if 150000 < v then some "150K+"
  else none

/-- pandas cut with bins [0, 2, 5, 10, inf], same right-closed policy. -/
def nivelGrupoCut (v : ℚ) : Option String :=
  if 0 < v ∧ v ≤ 2 then some "Junior"
  else if 2 < v ∧ v ≤ 5 then some "Mid"
  else if 5 < v ∧ v ≤ 10 then some "Senior"
  else if 10 < v then some "Expert"
  else none

/-- fillna(0) before cut; the column is numeric or null in the pipeline, so
non-numeric content is treated as the filled 0. -/
def fillZeroQ (c : Cell) : ℚ := (cellQ c).getD 0

/-- Series.str.title on one cell: a string gets title-cased, anything else
(including null) becomes null, to be replaced by fillna downstream. -/
def strTitleCell (c : Cell) : Option String :=
  match c with
  | some (.s x) => some (titleCase x)
  | _ => none

/-- A warehouse record after warehouse.py add_derived_metrics. -/
structure DRecord extends URecord where
  tiene_salario : Bool
  rango_salario : Option String
  tiene_experiencia : Bool
  nivel_experiencia_grupo : Option String
  pais_normalizado : String
  ciudad_normalizada : String
  mes_procesamiento : Option Nat
  ano_procesamiento : Option Nat
deriving DecidableEq, Repr

/-- warehouse.py add_derived_metrics on one record: the salary and
experience flags record presence of the original value, the buckets are
computed on the fillna(0) column, country and city are title-cased with the
No Especificado default, and the processing month and year are read off the
timestamp. -/
def addDerivedRow (r : URecord) : DRecord :=
  { toURecord := r
    tiene_salario := r.salario_usd.isSome
    rango_salario := rangoSalarioCut (fillZeroQ r.salario_usd)
    tiene_experiencia := r.anos_experiencia.isSome
    nivel_experiencia_grupo := nivelGrupoCut (fillZeroQ r.anos_experiencia)
    pais_normalizado := (strTitleCell r.pais).getD "No Especificado"
    ciudad_normalizada := (strTitleCell r.ciudad).getD "No Especificado"
    mes_procesamiento := match r.fecha_procesamiento with
      | some (.ts _ m) => some m
      | _ => none
    ano_procesamiento := match r.fecha_procesamiento with
      | some (.ts y _) => some y
      | _ => none }

/-- warehouse.py add_derived_metrics on the whole warehouse table. -/
def add_derived_metrics (df : List URecord) : List DRecord := df.map addDerivedRow

end Warehouse

namespace Mining

/-!
Embedding of src/data_mining.py.  The scikit-learn / mlxtend calls are
external collaborators: each is a black-box oracle returning Except, whose
error case stands for a raised exception that the surrounding try block of
the analysis converts into a tagged failure result.  The analyses therefore
never propagate an exception: every code path of the model ends in a value
of AResult.
-/

/-- A row of the consolidated warehouse table as the analyzer reads it. -/
structure MRow where
  fuente_datos : Cell := none
  tecnologia_principal : Cell := none
  framework_herramienta : Cell := none
  edad : Cell := none
  salario_usd : Cell := none
  pais_normalizado : Cell := none
  nivel_experiencia : Cell := none
  inversion_usd : Cell := none
  participantes : Cell := none
  duracion_meses : Cell := none
  satisfaccion_promedio : Cell := none
deriving DecidableEq, Repr

/-- The analyzer input table: the column list drives the membership tests
on df.columns, the rows drive the filters. -/
structure MDF where
  cols : List String
  rows : List MRow
deriving Repr

/-- The tag of one analysis entry in the combined report: the dictionary
either lacks an error key (success) or carries one with a reason. -/
inductive Tagged where
  | success
  | failure (reason : String)
deriving DecidableEq, Repr

/-- The result of one analysis: a payload dictionary or an error entry. -/
inductive AResult (α : Type) where
  | ok (payload : α)
  | err (reason : String)
deriving DecidableEq, Repr

/-- Erase the payload, keeping the tag the orchestrator inspects. -/
def AResult.tag : AResult α → Tagged
  | .ok _ => .success
  | .err r => .failure r

/-- The transaction built for one record by analyze_associations: the
role-prefixed language and framework items, skipping Unknown values. -/
def txOf (r : MRow) : List String :=
  (match r.tecnologia_principal with
   | some v => if v = .s "Unknown" then [] else ["lang_" ++ valText v]
   | none => []) ++
  (match r.framework_herramienta with
   | some v => if v = .s "Unknown" then [] else ["fw_" ++ valText v]
   | none => [])

/-- data_mining.py analyze_associations: guards for library availability,
for at least 10 rows with both technology fields, and for at least 10
non-empty transactions; the apriori plus rule extraction is the oracle,
whose ok-none case is the empty frequent-itemset early return. -/
def analyze_associations {α : Type} (avail : Bool)
    (oracle : List (List String) → Except String (Option α)) (df : MDF) : AResult α :=
  if !avail then .err "Librerías no disponibles"
  else
    let tech_data := df.rows.filter
      (fun r => r.tecnologia_principal.isSome && r.framework_herramienta.isSome)
    if tech_data.length < 10 then .err "Datos insuficientes para análisis de asociaciones"
    else
      let transactions := (tech_data.map txOf).filter (fun t => 0 < t.length)
      if transactions.length < 10 then .err "Transacciones insuficientes"
      else
        match oracle transactions with
        | .error e => .err ("Error en análisis: " ++ e)
        | .ok none => .err "No se encontraron patrones frecuentes"
        | .ok (some a) => .ok a

/-- The profile-sourced subset the clustering analysis works on. -/
def profilesOf (df : MDF) : List MRow :=
  df.rows.filter (fun r => decide (r.fuente_datos = some (.s "perfiles_habilidades")))

/-- The clustering feature names collected from whichever of the age,
salary and country columns are present. -/
def clusterFeatures (cols : List String) : List String :=
  (if "edad" ∈ cols then ["edad"] else [])
    ++ (if "salario_usd" ∈ cols then ["salario_usd"] else [])
    ++ (if "pais_normalizado" ∈ cols then ["pais"] else [])

/-- The body of analyze_clustering after the 50-record guard: the feature
count requirement, the cluster count clamp(records/20, min 2, max 5), and
the k-means fit as an oracle. -/
def clusteringAttempt {β : Type}
    (oracle : List MRow → List String → Nat → Except String β)
    (cols : List String) (profiles_data : List MRow) : AResult β :=
  let feature_names := clusterFeatures cols
  if feature_names.length < 2 then .err "Características insuficientes para clustering"
  else
    let n0 := min 5 (profiles_data.length / 20)
    let n_clusters := if n0 < 2 then 2 else n0
    match oracle profiles_data feature_names n_clusters with
    | .error e => .err ("Error en clustering: " ++ e)
    | .ok b => .ok b

/-- data_mining.py analyze_clustering: availability guard, the strict
50-record minimum on the profile subset, then the attempt body. -/
def analyze_clustering {β : Type} (avail : Bool)
    (oracle : List MRow → List String → Nat → Except String β) (df : MDF) : AResult β :=
  if !avail then .err "Librerías no disponibles"
  else
    let profiles_data := profilesOf df
    if profiles_data.length < 50 then .err "Datos insuficientes para clustering"
    else clusteringAttempt oracle df.cols profiles_data

/-- The investment-sourced subset with participant count and investment
amount present, as analyze_regression filters it. -/
def investmentOf (df : MDF) : List MRow :=
  df.rows.filter (fun r =>
    decide (r.fuente_datos = some (.s "inversiones_tech"))
      && r.participantes.isSome && r.inversion_usd.isSome)

/-- The regression feature names from whichever columns are present. -/
def regressionFeatures (cols : List String) : List String :=
  (if "inversion_usd" ∈ cols then ["inversion_usd"] else [])
    ++ (if "duracion_meses" ∈ cols then ["duracion_meses"] else [])
    ++ (if "satisfaccion_promedio" ∈ cols then ["satisfaccion_promedio"] else [])

/-- data_mining.py analyze_regression: the 20-record guard, the non-empty
feature requirement, the (unreachable after the first guard) 10-record
training guard, then the two-model fit as an oracle. -/
def analyze_regression {γ : Type} (avail : Bool)
    (oracle : List MRow → List String → Except String γ) (df : MDF) : AResult γ :=
  if !avail then .err "Librerías no disponibles"
  else
    let investment_data := investmentOf df
    if investment_data.length < 20 then .err "Datos insuficientes para regresión"
    else
      let feature_names := regressionFeatures df.cols
      if feature_names.length = 0 then .err "No hay características numéricas para regresión"
      else if investment_data.length < 10 then .err "Datos insuficientes para entrenamiento"
      else
        match oracle investment_data feature_names with
        | .error e => .err ("Error en regresión: " ++ e)
        | .ok g => .ok g

/-- The job-sourced subset with salary present, as analyze_classification
filters it. -/
def jobsOf (df : MDF) : List MRow :=
  df.rows.filter (fun r =>
    decide (r.fuente_datos = some (.s "empleos_tech")) && r.salario_usd.isSome)

/-- The classification feature names from whichever columns are present. -/
def classificationFeatures (cols : List String) : List String :=
  (if "tecnologia_principal" ∈ cols then ["tecnologia_principal"] else [])
    ++ (if "pais_normalizado" ∈ cols then ["pais"] else [])
    ++ (if "nivel_experiencia" ∈ cols then ["nivel_experiencia"] else [])

/-- data_mining.py analyze_classification: the 50-record guard, the
non-empty feature requirement, then target construction, class-variability
check and the two-classifier fit as an oracle whose ok-none case is the
single-class early return. -/
def analyze_classification {δ : Type} (avail : Bool)
    (oracle : List MRow → List String → Except String (Option δ)) (df : MDF) : AResult δ :=
  if !avail then .err "Librerías no disponibles"
  else
    let jobs_data := jobsOf df
    if jobs_data.length < 50 then .err "Datos insuficientes para clasificación"
    else
      let feature_names := classificationFeatures df.cols
      if feature_names.length = 0 then .err "No hay características para clasificación"
      else
        match oracle jobs_data feature_names with
        | .error e => .err ("Error en clasificación: " ++ e)
        | .ok none => .err "No hay variabilidad suficiente en la variable objetivo"
        | .ok (some d) => .ok d

/-- The Python f-string percentage (successes/4)*100 with one decimal; for
0 to 4 successes the float arithmetic is exact and the rendered digits are
the integer s*100/4 followed by .0, which this definition produces. -/
def formatRate (s : Nat) : String := toString (s * 100 / 4) ++ ".0%"

/-- The combined report of perform_data_mining_analysis. -/
structure MiningReport (α β γ δ : Type) where
  total_registros_analizados : Nat
  asociaciones : AResult α
  clustering : AResult β
  regresion : AResult γ
  clasificacion : AResult δ
  analisis_realizados : List (String × Tagged)
  analisis_exitosos : Nat
  total_analisis : Nat
  tasa_exito : String

/-- data_mining.py perform_data_mining_analysis: the four analyses run
unconditionally in the fixed order associations, clustering, regression,
classification; the report collects one tagged entry per analysis and the
success rate counts entries without an error key. -/
def perform_data_mining_analysis {α β γ δ : Type} (avail : Bool)
    (o1 : List (List String) → Except String (Option α))
    (o2 : List MRow → List String → Nat → Except String β)
    (o3 : List MRow → List String → Except String γ)
    (o4 : List MRow → List String → Except String (Option δ))
    (df : MDF) : MiningReport α β γ δ :=
  let a := analyze_associations avail o1 df
  let c := analyze_clustering avail o2 df
  let r := analyze_regression avail o3 df
  let k := analyze_classification avail o4 df
  let entries := [("asociaciones", a.tag), ("clustering", c.tag),
                  ("regresion", r.tag), ("clasificacion", k.tag)]
  let successful := entries.countP (fun e => decide (e.2 = Tagged.success))
  { total_registros_analizados := df.rows.length
    asociaciones := a
    clustering := c
    regresion := r
    clasificacion := k
    analisis_realizados := entries
    analisis_exitosos := successful
    total_analisis := 4
    tasa_exito := formatRate successful }

end Mining

namespace Limpieza

/-!
Embedding of src/limpieza.py.  A dataframe is a header of named, typed
columns plus rows of cells; every column operation first locates its column
by name and returns the table unchanged when the name is absent, exactly as
the guards at the top of each method do.
-/

/-- The pandas dtypes the cleaner distinguishes. -/
inductive Dtype where
  | float64
  | int64
  | obj
  | datetime
deriving DecidableEq, Repr

/-- A dataframe: named, typed columns and rows of cells, the i-th cell of a
row belonging to the i-th header entry. -/
structure DF where
  header : List (String × Dtype)
  rows : List (List Cell)
deriving DecidableEq, Repr

/-- The position of a column name in the header. -/
def colIdx (df : DF) (c : String) : Option Nat :=
  findIdxOf (fun p => p.1 == c) df.header

/-- The membership test column in df.columns. -/
def DF.hasCol (df : DF) (c : String) : Bool := (colIdx df c).isSome

/-- The dtype at a header position. -/
def dtypeAt (df : DF) (i : Nat) : Dtype := (df.header.getD i ("", Dtype.obj)).2

/-- The cells of the column at a header position, top to bottom. -/
def cellsAt (df : DF) (i : Nat) : List Cell :=
  df.rows.map (fun row => row.getD i none)

/-- The cells of a named column, empty when the column is absent. -/
def colCells (df : DF) (c : String) : List Cell :=
  match colIdx df c with
  | some i => cellsAt df i
  | none => []

/-- The dtype of a named column. -/
def colDtype (df : DF) (c : String) : Option Dtype :=
  (colIdx df c).map (dtypeAt df)

/-- The observable content of a named column: its dtype and cells. -/
def viewCol (df : DF) (c : String) : Option Dtype × List Cell :=
  (colDtype df c, colCells df c)

/-- Column assignment from a cellwise function, also updating the dtype;
the column keeps its name. -/
def mapColAt (df : DF) (i : Nat) (dt : Dtype) (f : Cell → Cell) : DF :=
  { header := df.header.set i ((df.header.getD i ("", Dtype.obj)).1, dt)
    rows := df.rows.map (fun row => row.set i (f (row.getD i none))) }

/-- Column assignment from a precomputed cell list (for the stateful
forward fill and the statistics-dependent outlier pass). -/
def setCellsAt (df : DF) (i : Nat) (dt : Dtype) (cells : List Cell) : DF :=
  { header := df.header.set i ((df.header.getD i ("", Dtype.obj)).1, dt)
    rows := df.rows.zipWith (fun row cell => row.set i cell) cells }

/-- One cell of limpieza.py clean_text_column: astype(str), strip, collapse
whitespace runs, then the exact value nan back to null. -/
def cleanTextCell (c : Cell) : Cell :=
  let t := collapseWs (cellText c).trim
  if t = "nan" then none else some (.s t)

/-- limpieza.py clean_text_column: absent column returned unchanged. -/
def clean_text_column (df : DF) (c : String) : DF :=
  match colIdx df c with
  | none => df
  | some i => mapColAt df i .obj cleanTextCell

/-- First-occurrence deduplication with an explicit seen-key accumulator,
the semantics of DataFrame.drop_duplicates. -/
def dedupFirstAux {κ : Type} [DecidableEq κ] (key : α → κ) : List α → List κ → List α
  | [], _ => []
  | a :: as, seen =>
    if key a ∈ seen then dedupFirstAux key as seen
    else a :: dedupFirstAux key as (key a :: seen)

/-- First-occurrence deduplication of a list under a key function. -/
def dedupFirst {κ : Type} [DecidableEq κ] (key : α → κ) (l : List α) : List α :=
  dedupFirstAux key l []

/-- The comparison key of one row under an optional column subset: the full
row, or the projection to the subset columns. -/
def rowKey (df : DF) (subset : Option (List String)) (row : List Cell) : List Cell :=
  match subset with
  | none => row
  | some cs => cs.map (fun c =>
      match colIdx df c with
      | some i => row.getD i none
      | none => none)

/-- drop_duplicates applied to the rows of a table. -/
def dedupRows (df : DF) (subset : Option (List String)) : DF :=
  { header := df.header, rows := dedupFirst (rowKey df subset) df.rows }

/-- limpieza.py remove_duplicates: drop_duplicates(subset) keeping first
occurrences; a subset naming an absent column raises KeyError in pandas,
modelled as none. -/
def remove_duplicates (df : DF) (subset : Option (List String)) : Option DF :=
  match subset with
  | none => some (dedupRows df none)
  | some cs =>
    if cs.all df.hasCol then some (dedupRows df (some cs)) else none

/-- The missing-value strategies of limpieza.py handle_missing_values;
default is the absent-entry case of strategy.get. -/
inductive Strategy where
  | drop
  | mean
  | median
  | mode
  | forward_fill
  | zero
  | unknown
  | default
deriving DecidableEq, Repr

/-- The numeric values of a cell list, nulls skipped, as pandas statistics
read a numeric column. -/
def qCells (cells : List Cell) : List ℚ := cells.filterMap cellQ

/-- Series.mean: null for the empty column. -/
def meanQ (l : List ℚ) : Option ℚ :=
  if l.length = 0 then none else some (l.sum / l.length)

/-- Series.median: the middle of the sorted values, interpolating the mean
of the two middles for even length; null for the empty column. -/
def medianQ (l : List ℚ) : Option ℚ :=
  let sorted := l.mergeSort (fun a b => decide (a ≤ b))
  if sorted.length = 0 then none
  else if sorted.length % 2 = 1 then some (sorted.getD (sorted.length / 2) 0)
  else some ((sorted.getD (sorted.length / 2 - 1) 0 + sorted.getD (sorted.length / 2) 0) / 2)

/-- An auxiliary total order on values used to model the sorted output of
Series.mode when picking mode_value[0]: numbers first by value, then
strings lexicographically, then timestamps. -/
def valLe (v w : Val) : Bool :=
  match v, w with
  | .q a, .q b => decide (a ≤ b)
  | .q _, _ => true
  | .s _, .q _ => false
  | .s a, .s b => decide (a ≤ b)
  | .s _, .ts _ _ => true
  | .ts _ _, .q _ => false
  | .ts _ _, .s _ => false
  | .ts a b, .ts x y => decide (a < x ∨ (a = x ∧ b ≤ y))

/-- Series.mode followed by taking element 0: the smallest value of maximal
multiplicity among the non-null cells, null when there is none. -/
def modeCell (cells : List Cell) : Option Val :=
  let vals := cells.filterMap id
  let distinct := vals.dedup
  let mx := (distinct.map (fun v => vals.count v)).foldl max 0
  let cands := distinct.filter (fun v => vals.count v = mx)
  cands.foldl (fun acc v =>
    match acc with
    | none => some v
    | some w => if valLe v w then some v else some w) none

/-- fillna(method=ffill) on a cell list: each null takes the closest
earlier non-null value, leading nulls stay null. -/
def ffillAux : Cell → List Cell → List Cell
  | _, [] => []
  | lastv, none :: cs => lastv :: ffillAux lastv cs
  | _, some v :: cs => some v :: ffillAux (some v) cs

/-- Fill the nulls of a column with one value. -/
def fillCell (v : Val) (c : Cell) : Cell :=
  match c with
  | none => some v
  | some w => some w

/-- One loop iteration of limpieza.py handle_missing_values for a column
present in the table: the strategy dispatch, with the numeric-dtype
requirement on mean, median and zero, the non-empty requirement on mode,
and no action for the default case. -/
def applyStrategyAt (df : DF) (c : String) (st : Strategy) : DF :=
  match colIdx df c with
  | none => df
  | some i =>
    let dt := dtypeAt df i
    let cells := cellsAt df i
    match st with
    | .drop => { header := df.header, rows := df.rows.filter (fun row => (row.getD i none).isSome) }
    | .mean =>
      if dt = .int64 ∨ dt = .float64 then
        match meanQ (qCells cells) with
        | some m => mapColAt df i dt (fillCell (.q m))
        | none => df
      else df
    | .median =>
      if dt = .int64 ∨ dt = .float64 then
        match medianQ (qCells cells) with
        | some m => mapColAt df i dt (fillCell (.q m))
        | none => df
      else df
    | .mode =>
      match modeCell cells with
      | some v => mapColAt df i dt (fillCell v)
      | none => df
    | .forward_fill => setCellsAt df i dt (ffillAux none cells)
    | .zero =>
      if dt = .int64 ∨ dt = .float64 then mapColAt df i dt (fillCell (.q 0)) else df
    | .unknown => mapColAt df i dt (fillCell (.s "Unknown"))
    | .default => df

/-- limpieza.py handle_missing_values: iterate the columns of the table in
header order, applying to each the strategy registered for it, if any. -/
def handle_missing_values (df : DF) (strategy : List (String × Strategy)) : DF :=
  (df.header.map Prod.fst).foldl
    (fun acc c => applyStrategyAt acc c ((strategy.lookup c).getD .default)) df

/-- The two regex substitutions of clean_numeric_column composed: only
digits, dots and hyphens survive (the currency-symbol pass is subsumed by
the second, keep-only-numeric pass). -/
def stripNonNum (s : String) : String :=
  String.mk (s.data.filter (fun ch => ch.isDigit || ch == '.' || ch == '-'))

/-- The digit list value of a numeral. -/
def digitsVal (l : List Char) : Nat :=
  l.foldl (fun a c => a * 10 + (c.toNat - 48)) 0

/-- pandas to_numeric(errors=coerce) on a string of digits, dots and
hyphens: an optional leading minus, then digits with at most one dot and at
least one digit in total; anything else becomes null. -/
def parseNum (s : String) : Option ℚ :=
  let (neg, body) :=
    match s.data with
    | '-' :: r => (true, String.mk r)
    | _ => (false, s)
  let signed : ℚ → ℚ := fun x => if neg then -x else x
  match body.splitOn "." with
  | [a] =>
    if a ≠ "" ∧ a.all Char.isDigit then some (signed (digitsVal a.data)) else none
  | [a, b] =>
    if (a ++ b) ≠ "" ∧ a.all Char.isDigit ∧ b.all Char.isDigit then
      some (signed ((digitsVal a.data : ℚ) + (digitsVal b.data : ℚ) / (10 : ℚ) ^ b.length))
    else none
  | _ => none

/-- One cell of the object-dtype coercion branch of clean_numeric_column:
astype(str), strip the non-numeric characters, to_numeric with coercion. -/
def coerceNumCell (c : Cell) : Cell :=
  match parseNum (stripNonNum (cellText c)) with
  | some x => some (.q x)
  | none => none

/-- The outlier test abs((x - mean)/std) > 3 of clean_numeric_column in
exact arithmetic: for positive sample variance it is equivalent to
(x - mean)^2 > 9*var since std is its square root; for zero variance the
float quotient is NaN when x equals the mean (not an outlier) and infinite
otherwise (an outlier), which the first branch reproduces. -/
def zOutlier (mean var x : ℚ) : Bool :=
  if var = 0 then decide (x ≠ mean) else decide ((x - mean) ^ 2 > 9 * var)

/-- Sample variance with one delta degree of freedom, the square of
Series.std; null when fewer than two values, where std is NaN and the
outlier mask is everywhere false. -/
def varQ (l : List ℚ) : Option ℚ :=
  match meanQ l with
  | none => none
  | some m =>
    if l.length < 2 then none
    else some ((l.map (fun x => (x - m) ^ 2)).sum / ((l.length : ℚ) - 1))

/-- The outlier-nulling pass of clean_numeric_column on a cell list: cells
more than three standard deviations from the mean become null; when the
mean or std is NaN (fewer than two values) the mask is false everywhere. -/
def nullOutliers (cells : List Cell) : List Cell :=
  let vals := qCells cells
  match meanQ vals, varQ vals with
  | some m, some v =>
    cells.map (fun c =>
      match c with
      | some (.q x) => if zOutlier m v x then none else some (.q x)
      | other => other)
  | _, _ => cells

/-- limpieza.py clean_numeric_column: absent column returned unchanged;
an object column is first coerced to numeric; a numeric column then has its
outliers nulled. -/
def clean_numeric_column (df : DF) (c : String) : DF :=
  match colIdx df c with
  | none => df
  | some i =>
    let df1 := if dtypeAt df i = .obj then mapColAt df i .float64 coerceNumCell else df
    if dtypeAt df1 i = .int64 ∨ dtypeAt df1 i = .float64 then
      setCellsAt df1 i (dtypeAt df1 i) (nullOutliers (cellsAt df1 i))
    else df1

/-- limpieza.py standardize_dates: pd.to_datetime(errors=coerce) is an
external collaborator, abstracted as the dateParse argument; absent columns
are skipped. -/
def standardize_dates (dateParse : Cell → Cell) (df : DF) (date_columns : List String) : DF :=
  date_columns.foldl
    (fun acc c =>
      match colIdx acc c with
      | none => acc
      | some i => mapColAt acc i .datetime dateParse) df

/-- One cell of clean_categorical_column: astype(str).str.title, which
renders a null as the title-cased text Nan. -/
def catCell (c : Cell) : Cell := some (.s (titleCase (cellText c)))

/-- limpieza.py clean_categorical_column: absent column returned
unchanged; title-case the column, then, when a non-empty whitelist is
given, remap every value outside its title-cased form to Other. -/
def clean_categorical_column (df : DF) (c : String) (valid_categories : Option (List String)) : DF :=
  match colIdx df c with
  | none => df
  | some i =>
    let df1 := mapColAt df i .obj catCell
    let vs := valid_categories.getD []
    if vs = [] then df1
    else
      let vt := vs.map titleCase
      mapColAt df1 i .obj (fun cell =>
        match cell with
        | some (.s x) => if x ∈ vt then some (.s x) else some (.s "Other")
        | other => other)

/-- The character class of the local part of the email regex. -/
def isLocalChar (c : Char) : Bool :=
  c.isAlphanum || c == '.' || c == '_' || c == '%' || c == '+' || c == '-'

/-- The email regex of clean_email_column, decided structurally: one at
sign; a non-empty local part over its class; a domain with a non-empty body
over letters, digits, dots and hyphens, then a final dot and an alphabetic
top level of length at least two.  Anchored at both ends like the original
pattern. -/
def emailMatch (s : String) : Bool :=
  match s.splitOn "@" with
  | [localPart, dom] =>
    let segs := dom.splitOn "."
    let tld := (segs.getLast?).getD ""
    localPart ≠ "" && localPart.all isLocalChar
      && decide (2 ≤ segs.length)
      && decide (2 ≤ tld.length) && tld.all Char.isAlpha
      && segs.dropLast.all (fun seg => seg.all (fun ch => ch.isAlphanum || ch == '-'))
      && decide (tld.length + 2 ≤ dom.length)
  | _ => false

/-- The normalization pass of clean_email_column: astype(str), lower,
strip. -/
def emailNormCell (c : Cell) : Cell := some (.s (cellText c).toLower.trim)

/-- limpieza.py clean_email_column: absent column returned unchanged;
normalize, then null every value the regex rejects (na=False). -/
def clean_email_column (df : DF) (c : String) : DF :=
  match colIdx df c with
  | none => df
  | some i =>
    let df1 := mapColAt df i .obj emailNormCell
    mapColAt df1 i .obj (fun cell =>
      match cell with
      | some (.s x) => if emailMatch x then some (.s x) else none
      | _ => none)

/-- The cleaning_config dictionary of limpieza.py clean_dataframe. -/
structure CleanConfig where
  missing_strategy : List (String × Strategy) := []
  text_columns : List String := []
  numeric_columns : List String := []
  date_columns : List String := []
  categorical_columns : List (String × Option (List String)) := []
  email_columns : List String := []

/-- The prefix of clean_dataframe up to and including the numeric pass:
duplicates removed first (no subset, hence never failing), then the
missing-value strategies, then text cleaning, then numeric cleaning with
its outlier nulling. -/
def throughNumeric (df : DF) (cfg : CleanConfig) : DF :=
  let d1 := (remove_duplicates df none).getD df
  let d2 := handle_missing_values d1 cfg.missing_strategy
  let d3 := cfg.text_columns.foldl clean_text_column d2
  cfg.numeric_columns.foldl clean_numeric_column d3

/-- limpieza.py clean_dataframe in source order: duplicates, missing
values, text columns, numeric columns, date columns, categorical columns,
email columns. -/
def clean_dataframe (dateParse : Cell → Cell) (df : DF) (cfg : CleanConfig) : DF :=
  let d4 := throughNumeric df cfg
  let d5 := if cfg.date_columns = [] then d4 else standardize_dates dateParse d4 cfg.date_columns
  let d6 := cfg.categorical_columns.foldl (fun acc p => clean_categorical_column acc p.1 p.2) d5
  cfg.email_columns.foldl clean_email_column d6

/-- Modelled from the spec: the pipeline ordering the open-question claim
describes, in which the numeric pass with its outlier nulling runs before
the missing-value strategies, everything else unchanged.  Used only to
compare against the source-order clean_dataframe. -/
def clean_dataframe_claim_order (dateParse : Cell → Cell) (df : DF) (cfg : CleanConfig) : DF :=
  let d1 := (remove_duplicates df none).getD df
  let d2 := cfg.text_columns.foldl clean_text_column d1
  let d3 := cfg.numeric_columns.foldl clean_numeric_column d2
  let d4 := handle_missing_values d3 cfg.missing_strategy
  let d5 := if cfg.date_columns = [] then d4 else standardize_dates dateParse d4 cfg.date_columns
  let d6 := cfg.categorical_columns.foldl (fun acc p => clean_categorical_column acc p.1 p.2) d5
  cfg.email_columns.foldl clean_email_column d6

/-- Concrete fixture for the pipeline-order question: twelve distinct rows
(id column 0..11), a float column x holding ten zeros, the value 11 (more
than three sample standard deviations from the mean) and one null. -/
def dfOrd : DF :=
  { header := [("id", .float64), ("x", .float64)]
    rows := [[some (.q 0), some (.q 0)], [some (.q 1), some (.q 0)],
             [some (.q 2), some (.q 0)], [some (.q 3), some (.q 0)],
             [some (.q 4), some (.q 0)], [some (.q 5), some (.q 0)],
             [some (.q 6), some (.q 0)], [some (.q 7), some (.q 0)],
             [some (.q 8), some (.q 0)], [some (.q 9), some (.q 0)],
             [some (.q 10), some (.q 11)], [some (.q 11), none]] }

/-- The fixture configuration: fill x by mean, outlier-clean x. -/
def cfgOrd : CleanConfig :=
  { missing_strategy := [("x", .mean)], numeric_columns := ["x"] }

/-- The fixture after the mean fill of x (mean of the eleven non-null
values is 1). -/
def dfOrdFill : DF :=
  { header := [("id", .float64), ("x", .float64)]
    rows := [[some (.q 0), some (.q 0)], [some (.q 1), some (.q 0)],
             [some (.q 2), some (.q 0)], [some (.q 3), some (.q 0)],
             [some (.q 4), some (.q 0)], [some (.q 5), some (.q 0)],
             [some (.q 6), some (.q 0)], [some (.q 7), some (.q 0)],
             [some (.q 8), some (.q 0)], [some (.q 9), some (.q 0)],
             [some (.q 10), some (.q 11)], [some (.q 11), some (.q 1)]] }

/-- The source-order pipeline output on the fixture: the outlier 11 was
nulled after the fill and stays null. -/
def dfOrdRes : DF :=
  { header := [("id", .float64), ("x", .float64)]
    rows := [[some (.q 0), some (.q 0)], [some (.q 1), some (.q 0)],
             [some (.q 2), some (.q 0)], [some (.q 3), some (.q 0)],
             [some (.q 4), some (.q 0)], [some (.q 5), some (.q 0)],
             [some (.q 6), some (.q 0)], [some (.q 7), some (.q 0)],
             [some (.q 8), some (.q 0)], [some (.q 9), some (.q 0)],
             [some (.q 10), none], [some (.q 11), some (.q 1)]] }

/-- The fixture after an outlier-nulling pass run first, as the claim
orders the pipeline. -/
def dfOrdNull : DF :=
  { header := [("id", .float64), ("x", .float64)]
    rows := [[some (.q 0), some (.q 0)], [some (.q 1), some (.q 0)],
             [some (.q 2), some (.q 0)], [some (.q 3), some (.q 0)],
             [some (.q 4), some (.q 0)], [some (.q 5), some (.q 0)],
             [some (.q 6), some (.q 0)], [some (.q 7), some (.q 0)],
             [some (.q 8), some (.q 0)], [some (.q 9), some (.q 0)],
             [some (.q 10), none], [some (.q 11), none]] }

/-- The claim-order pipeline output on the fixture: the nulled outlier gets
silently re-filled with the mean computed after nulling. -/
def dfOrdClaimRes : DF :=
  { header := [("id", .float64), ("x", .float64)]
    rows := [[some (.q 0), some (.q 0)], [some (.q 1), some (.q 0)],
             [some (.q 2), some (.q 0)], [some (.q 3), some (.q 0)],
             [some (.q 4), some (.q 0)], [some (.q 5), some (.q 0)],
             [some (.q 6), some (.q 0)], [some (.q 7), some (.q 0)],
             [some (.q 8), some (.q 0)], [some (.q 9), some (.q 0)],
             [some (.q 10), some (.q 0)], [some (.q 11), some (.q 0)]] }

end Limpieza

namespace Validacion

/-!
Embedding of src/validaciones.py, focused on how generate_validation_report
assembles per-validation statuses into the overall status.  Every function
is total: validation never raises and always yields a structured report.
The per-rule evaluation of validate_business_rules is abstracted as the
list of statuses the individual rules obtained (passed, failed on
violations, error on an exception caught by the per-rule handler).
-/

/-- The status tags of validaciones.py. -/
inductive VStatus where
  | passed
  | warning
  | failed
  | error
deriving DecidableEq, Repr

/-- The status of validate_schema: failed exactly when an expected column
is missing; extra columns and dtype mismatches only append warnings without
touching the status. -/
def validate_schema_status (df : Limpieza.DF) (expected : List (String × String)) : VStatus :=
  if expected.any (fun p => !(df.hasCol p.1)) then .failed else .passed

/-- The status of validate_business_rules given the statuses its rules
obtained: during the loop an exception sets the overall status to error,
and after the loop any failed rule forces failed. -/
def business_rules_status (ruleStatuses : List VStatus) : VStatus :=
  let looped := ruleStatuses.foldl (fun acc r => if r = .error then .error else acc) .passed
  if ruleStatuses.any (fun r => decide (r = .failed)) then .failed else looped

/-- The completeness percentage of the column at a header position, zero
for an empty table. -/
def completenessPct (df : Limpieza.DF) (i : Nat) : ℚ :=
  let total := df.rows.length
  if 0 < total then
    ((df.rows.countP (fun row => (row.getD i none).isSome) : ℚ) * 100) / (total : ℚ)
  else 0

/-- The status of validate_completeness: iterating the required columns in
order, an absent column assigns failed and a present column under 80
percent completeness assigns warning, each assignment overwriting the
previous status as the source loop does. -/
def validate_completeness_status (df : Limpieza.DF) (required : List String) : VStatus :=
  required.foldl
    (fun acc c =>
      match Limpieza.colIdx df c with
      | some i => if completenessPct df i < 80 then .warning else acc
      | none => .failed) .passed

/-- The validation_config dictionary as generate_validation_report reads
it: an optional expected schema, the optional business rules (given by the
statuses their evaluation yields), and the optional required column list
defaulting to all columns. -/
structure ValidationConfig where
  schema : Option (List (String × String)) := none
  business_rules : Option (List VStatus) := none
  required_columns : Option (List String) := none

/-- The statuses generate_validation_report finds among its sub-reports, in
dictionary insertion order: the schema validation when a non-empty schema
is configured, the business-rules validation when non-empty rules are
configured, and always the completeness validation.  The data-quality
sub-report carries no top-level status key and contributes nothing. -/
def collectedStatuses (df : Limpieza.DF) (cfg : ValidationConfig) : List VStatus :=
  (match cfg.schema with
   | some es => if es = [] then [] else [validate_schema_status df es]
   | none => []) ++
  (match cfg.business_rules with
   | some rs => if rs = [] then [] else [business_rules_status rs]
   | none => []) ++
  [validate_completeness_status df (cfg.required_columns.getD (df.header.map Prod.fst))]

/-- The overall-status combination at the end of
generate_validation_report: any failed wins, else any warning, else
passed. -/
def overall_status (statuses : List VStatus) : VStatus :=
  if VStatus.failed ∈ statuses then .failed
  else if VStatus.warning ∈ statuses then .warning
  else .passed

/-- The report of generate_validation_report, reduced to the fields the
status combination involves. -/
structure VReport where
  rows : Nat
  columns : Nat
  statuses : List VStatus
  overall : VStatus
deriving DecidableEq, Repr

/-- validaciones.py generate_validation_report: dataset info, the
sub-validations, and the overall status combined from their statuses. -/
def generate_validation_report (df : Limpieza.DF) (cfg : ValidationConfig) : VReport :=
  let sts := collectedStatuses df cfg
  { rows := df.rows.length
    columns := df.header.length
    statuses := sts
    overall := overall_status sts }

end Validacion

/-!
Theorems: general helper lemmas first, then one theorem per claim, with a
witness or counterexample where the claim status requires one.
-/

open Warehouse Limpieza Mining Validacion

theorem list_set_getD_self {α : Type} : ∀ (l : List α) (i : Nat) (d : α), l.set i (l.getD i d) = l := by
  intro l
  induction l with
  | nil => intro i d; rfl
  | cons a as ih =>
    intro i d
    cases i with
    | zero => rfl
    | succ n =>
      show a :: as.set n (as.getD n d) = a :: as
      rw [ih]

theorem list_getD_set_ne {α : Type} :
    ∀ (l : List α) (i j : Nat) (v d : α), i ≠ j → (l.set i v).getD j d = l.getD j d := by
  intro l
  induction l with
  | nil => intro i j v d _; rfl
  | cons a as ih =>
    intro i j v d hne
    cases i with
    | zero =>
      cases j with
      | zero => exact absurd rfl hne
      | succ m => rfl
    | succ n =>
      cases j with
      | zero => rfl
      | succ m =>
        show (as.set n v).getD m d = as.getD m d
        exact ih n m v d (fun h => hne (by rw [h]))

theorem findIdxOf_getD {α : Type} (p : α → Bool) :
    ∀ (l : List α) (i : Nat) (d : α), findIdxOf p l = some i → p (l.getD i d) = true := by
  intro l
  induction l with
  | nil => intro i d h; simp [findIdxOf] at h
  | cons a as ih =>
    intro i d h
    by_cases hp : p a
    · simp [findIdxOf, hp] at h
      subst h
      exact hp
    · simp [findIdxOf, hp] at h
      obtain ⟨n, hn, hni⟩ := h
      subst hni
      show p (as.getD n d) = true
      exact ih n d hn

/-- Claim C1: create_unified_schema consolidates the three standardized
tables as the jobs-derived records, then the investment-derived records,
then the profiles-derived records, with exactly one unified record per
source row, so the consolidated count is the sum of the three input row
counts. -/
theorem claim_C1 (now : Val) (jobs_df investment_df profiles_df : List Row) :
    create_unified_schema now jobs_df investment_df profiles_df
      = (standardize_common_columns now "empleos_tech" jobs_df).map jobRecord
        ++ (standardize_common_columns now "inversiones_tech" investment_df).map invRecord
        ++ (standardize_common_columns now "perfiles_habilidades" profiles_df).map profRecord
    ∧ (create_unified_schema now jobs_df investment_df profiles_df).length
        = jobs_df.length + investment_df.length + profiles_df.length := by
  constructor
  · rfl
  · simp [create_unified_schema, standardize_common_columns]
    omega

/-- Claim C2, counterexample: a record with null salary_usd does not fall
in the lowest display bucket; fillna(0) feeds 0 to pd.cut, whose lowest
interval (0, 50000] excludes it, so the bucket is null. -/
theorem claim_C2_cex :
    (add_derived_metrics [{}]).map (fun d => d.rango_salario) ≠ [some "<50K"]
    ∧ (add_derived_metrics [{}]).map (fun d => d.rango_salario) = [none]
    ∧ (add_derived_metrics [{}]).map (fun d => d.tiene_salario) = [false] := by
  decide

/-- Claim C2, amended: in a warehouse table enriched by
add_derived_metrics, a record with salary_usd = 120000 has salary bucket
100K-150K and has_salary true; a record with null salary_usd has a null
salary bucket (the fillna(0) value 0 lies below the right-closed lowest
bin) and has_salary false. -/
theorem claim_C2 (r : URecord) :
    (add_derived_metrics [{ r with salario_usd := some (.q 120000) }]).map
        (fun d => (d.rango_salario, d.tiene_salario)) = [(some "100K-150K", true)]
    ∧ (add_derived_metrics [{ r with salario_usd := none }]).map
        (fun d => (d.rango_salario, d.tiene_salario)) = [(none, false)] := by
  constructor
  · simp [add_derived_metrics, addDerivedRow, rangoSalarioCut, fillZeroQ, cellQ, valQ]
    norm_num
  · simp [add_derived_metrics, addDerivedRow, rangoSalarioCut, fillZeroQ, cellQ, valQ]
    norm_num

/-- Claim C4: every consolidated record carries one of the three enumerated
non-null source labels, and the three labels count the records exactly as
the three input row counts, so they partition the consolidated set. -/
theorem claim_C4 (now : Val) (jobs_df investment_df profiles_df : List Row) :
    (∀ r ∈ create_unified_schema now jobs_df investment_df profiles_df,
        r.fuente_datos = some (Val.s "empleos_tech")
          ∨ r.fuente_datos = some (Val.s "inversiones_tech")
          ∨ r.fuente_datos = some (Val.s "perfiles_habilidades"))
    ∧ (create_unified_schema now jobs_df investment_df profiles_df).countP
        (fun r => decide (r.fuente_datos = some (Val.s "empleos_tech"))) = jobs_df.length
    ∧ (create_unified_schema now jobs_df investment_df profiles_df).countP
        (fun r => decide (r.fuente_datos = some (Val.s "inversiones_tech"))) = investment_df.length
    ∧ (create_unified_schema now jobs_df investment_df profiles_df).countP
        (fun r => decide (r.fuente_datos = some (Val.s "perfiles_habilidades"))) = profiles_df.length := by
  refine ⟨?_, ?_, ?_, ?_⟩
  · intro r hr
    simp only [create_unified_schema, List.mem_append, List.mem_map] at hr
    rcases hr with (⟨r0, _, rfl⟩ | ⟨r0, _, rfl⟩) | ⟨r0, _, rfl⟩
    · exact Or.inl rfl
    · exact Or.inr (Or.inl rfl)
    · exact Or.inr (Or.inr rfl)
  · simp [create_unified_schema, standardize_common_columns, List.countP_map,
      Function.comp_def, jobRecord, invRecord, profRecord, List.countP_true, List.countP_false]
  · simp [create_unified_schema, standardize_common_columns, List.countP_map,
      Function.comp_def, jobRecord, invRecord, profRecord, List.countP_true, List.countP_false]
  · simp [create_unified_schema, standardize_common_columns, List.countP_map,
      Function.comp_def, jobRecord, invRecord, profRecord, List.countP_true, List.countP_false]

/-- Claim C4, witness at a concrete input: one row per source. -/
theorem claim_C4_witness :
    ((jobRecord (stdRow (.ts 2026 10) "empleos_tech" [])).fuente_datos = some (Val.s "empleos_tech")
      ∨ (jobRecord (stdRow (.ts 2026 10) "empleos_tech" [])).fuente_datos = some (Val.s "inversiones_tech")
      ∨ (jobRecord (stdRow (.ts 2026 10) "empleos_tech" [])).fuente_datos = some (Val.s "perfiles_habilidades"))
    ∧ (create_unified_schema (.ts 2026 10) [[]] [[]] [[]]).countP
        (fun r => decide (r.fuente_datos = some (Val.s "empleos_tech"))) = 1 :=
  ⟨(claim_C4 (.ts 2026 10) [[]] [[]] [[]]).1 (jobRecord (stdRow (.ts 2026 10) "empleos_tech" []))
      (by decide),
   (claim_C4 (.ts 2026 10) [[]] [[]] [[]]).2.1⟩

theorem str_append_ne_empty (a b : String) (h : a.length ≠ 0) : a ++ b ≠ "" := by
  intro hc
  apply h
  have h2 := congrArg String.length hc
  rw [String.length_append] at h2
  have h3 : String.length "" = 0 := rfl
  omega

theorem formatRate_mem (s : Nat) (h : s ≤ 4) :
    formatRate s ∈ (["0.0%", "25.0%", "50.0%", "75.0%", "100.0%"] : List String) := by
  interval_cases s <;> decide

theorem assoc_reason_ne {α : Type} (avail : Bool)
    (oracle : List (List String) → Except String (Option α)) (df : MDF) (s : String)
    (h : (analyze_associations avail oracle df).tag = Tagged.failure s) : s ≠ "" := by
  simp only [analyze_associations] at h
  split at h
  · simp only [AResult.tag, Tagged.failure.injEq] at h
    subst h; decide
  · split at h
    · simp only [AResult.tag, Tagged.failure.injEq] at h
      subst h; decide
    · split at h
      · simp only [AResult.tag, Tagged.failure.injEq] at h
        subst h; decide
      · split at h
        · simp only [AResult.tag, Tagged.failure.injEq] at h
          subst h
          exact str_append_ne_empty _ _ (by decide)
        · simp only [AResult.tag, Tagged.failure.injEq] at h
          subst h; decide
        · simp [AResult.tag] at h

theorem clustering_reason_ne {β : Type} (avail : Bool)
    (oracle : List MRow → List String → Nat → Except String β) (df : MDF) (s : String)
    (h : (analyze_clustering avail oracle df).tag = Tagged.failure s) : s ≠ "" := by
  simp only [analyze_clustering, clusteringAttempt] at h
  split at h
  · simp only [AResult.tag, Tagged.failure.injEq] at h
    subst h; decide
  · split at h
    · simp only [AResult.tag, Tagged.failure.injEq] at h
      subst h; decide
    · split at h
      · simp only [AResult.tag, Tagged.failure.injEq] at h
        subst h; decide
      · split at h
        · simp only [AResult.tag, Tagged.failure.injEq] at h
          subst h
          exact str_append_ne_empty _ _ (by decide)
        · simp [AResult.tag] at h

theorem regression_reason_ne {γ : Type} (avail : Bool)
    (oracle : List MRow → List String → Except String γ) (df : MDF) (s : String)
    (h : (analyze_regression avail oracle df).tag = Tagged.failure s) : s ≠ "" := by
  simp only [analyze_regression] at h
  split at h
  · simp only [AResult.tag, Tagged.failure.injEq] at h
    subst h; decide
  · split at h
    · simp only [AResult.tag, Tagged.failure.injEq] at h
      subst h; decide
    · split at h
      · simp only [AResult.tag, Tagged.failure.injEq] at h
        subst h; decide
      · split at h
        · simp only [AResult.tag, Tagged.failure.injEq] at h
          subst h; decide
        · split at h
          · simp only [AResult.tag, Tagged.failure.injEq] at h
            subst h
            exact str_append_ne_empty _ _ (by decide)
          · simp [AResult.tag] at h

theorem classification_reason_ne {δ : Type} (avail : Bool)
    (oracle : List MRow → List String → Except String (Option δ)) (df : MDF) (s : String)
    (h : (analyze_classification avail oracle df).tag = Tagged.failure s) : s ≠ "" := by
  simp only [analyze_classification] at h
  split at h
  · simp only [AResult.tag, Tagged.failure.injEq] at h
    subst h; decide
  · split at h
    · simp only [AResult.tag, Tagged.failure.injEq] at h
      subst h; decide
    · split at h
      · simp only [AResult.tag, Tagged.failure.injEq] at h
        subst h; decide
      · split at h
        · simp only [AResult.tag, Tagged.failure.injEq] at h
          subst h
          exact str_append_ne_empty _ _ (by decide)
        · simp only [AResult.tag, Tagged.failure.injEq] at h
          subst h; decide
        · simp [AResult.tag] at h

/-- Claim C3: perform_data_mining_analysis always runs the four analyses in
the fixed order associations, clustering, regression, classification,
producing exactly one tagged entry per analysis; every entry is either a
success or a failure with a non-empty human-readable reason (the analyses
are total, so no exception escapes an analysis boundary); and the success
rate is successes/4 rendered as a one-decimal percentage string. -/
theorem claim_C3 {α β γ δ : Type} (avail : Bool)
    (o1 : List (List String) → Except String (Option α))
    (o2 : List MRow → List String → Nat → Except String β)
    (o3 : List MRow → List String → Except String γ)
    (o4 : List MRow → List String → Except String (Option δ)) (df : MDF) :
    (perform_data_mining_analysis avail o1 o2 o3 o4 df).analisis_realizados
      = [("asociaciones", (analyze_associations avail o1 df).tag),
         ("clustering", (analyze_clustering avail o2 df).tag),
         ("regresion", (analyze_regression avail o3 df).tag),
         ("clasificacion", (analyze_classification avail o4 df).tag)]
    ∧ (perform_data_mining_analysis avail o1 o2 o3 o4 df).total_analisis = 4
    ∧ (perform_data_mining_analysis avail o1 o2 o3 o4 df).analisis_exitosos
        = ((perform_data_mining_analysis avail o1 o2 o3 o4 df).analisis_realizados).countP
            (fun e => decide (e.2 = Tagged.success))
    ∧ (perform_data_mining_analysis avail o1 o2 o3 o4 df).tasa_exito
        = formatRate (perform_data_mining_analysis avail o1 o2 o3 o4 df).analisis_exitosos
    ∧ (perform_data_mining_analysis avail o1 o2 o3 o4 df).tasa_exito
        ∈ (["0.0%", "25.0%", "50.0%", "75.0%", "100.0%"] : List String)
    ∧ ∀ e ∈ (perform_data_mining_analysis avail o1 o2 o3 o4 df).analisis_realizados,
        ∀ s, e.2 = Tagged.failure s → s ≠ "" := by
  refine ⟨rfl, rfl, rfl, rfl, ?_, ?_⟩
  · apply formatRate_mem
    have hle := List.countP_le_length (l :=
      [("asociaciones", (analyze_associations avail o1 df).tag),
       ("clustering", (analyze_clustering avail o2 df).tag),
       ("regresion", (analyze_regression avail o3 df).tag),
       ("clasificacion", (analyze_classification avail o4 df).tag)])
      (p := fun e => decide (e.2 = Tagged.success))
    simpa using hle
  · intro e he s hfail
    simp only [perform_data_mining_analysis, List.mem_cons, List.not_mem_nil, or_false] at he
    rcases he with rfl | rfl | rfl | rfl
    · exact assoc_reason_ne avail o1 df s hfail
    · exact clustering_reason_ne avail o2 df s hfail
    · exact regression_reason_ne avail o3 df s hfail
    · exact classification_reason_ne avail o4 df s hfail

/-- Claim C3, witness at a concrete input with the libraries unavailable:
the four failure entries appear in order, the rate string is among the five
possible values, and the failure reason is non-empty. -/
theorem claim_C3_witness :
    (perform_data_mining_analysis false (fun _ => Except.ok (none : Option Unit))
        (fun _ _ _ => Except.ok ()) (fun _ _ => Except.ok ())
        (fun _ _ => Except.ok (none : Option Unit)) { cols := [], rows := [] }).tasa_exito
      ∈ (["0.0%", "25.0%", "50.0%", "75.0%", "100.0%"] : List String)
    ∧ ("Librerías no disponibles" : String) ≠ "" :=
  ⟨(claim_C3 false (fun _ => Except.ok (none : Option Unit)) (fun _ _ _ => Except.ok ())
      (fun _ _ => Except.ok ()) (fun _ _ => Except.ok (none : Option Unit))
      { cols := [], rows := [] }).2.2.2.2.1,
   (claim_C3 false (fun _ => Except.ok (none : Option Unit)) (fun _ _ _ => Except.ok ())
      (fun _ _ => Except.ok ()) (fun _ _ => Except.ok (none : Option Unit))
      { cols := [], rows := [] }).2.2.2.2.2
      ("asociaciones",
        (analyze_associations false (fun _ => Except.ok (none : Option Unit))
          { cols := [], rows := [] }).tag)
      (by decide) "Librerías no disponibles" (by decide)⟩

/-- Claim C8: with exactly 49 profile-sourced records the clustering
analysis returns the insufficient-data failure; with exactly 50 the record
count guard passes and the clustering attempt proceeds, subject only to the
later feature-count requirement inside clusteringAttempt. -/
theorem claim_C8 {β : Type} (oracle : List MRow → List String → Nat → Except String β) (df : MDF) :
    ((profilesOf df).length = 49 →
        analyze_clustering true oracle df = AResult.err "Datos insuficientes para clustering")
    ∧ ((profilesOf df).length = 50 →
        analyze_clustering true oracle df = clusteringAttempt oracle df.cols (profilesOf df)) := by
  constructor
  · intro h49
    simp [analyze_clustering, h49]
  · intro h50
    simp [analyze_clustering, h50]

/-- Claim C8, witness at concrete inputs of 49 and 50 profile records. -/
theorem claim_C8_witness :
    analyze_clustering true (fun _ _ _ => Except.ok (0 : Nat))
        { cols := [], rows := List.replicate 49 { fuente_datos := some (.s "perfiles_habilidades") } }
      = AResult.err "Datos insuficientes para clustering"
    ∧ analyze_clustering true (fun _ _ _ => Except.ok (0 : Nat))
        { cols := [], rows := List.replicate 50 { fuente_datos := some (.s "perfiles_habilidades") } }
      = clusteringAttempt (fun _ _ _ => Except.ok (0 : Nat))
          (MDF.cols { cols := [], rows := List.replicate 50 { fuente_datos := some (.s "perfiles_habilidades") } })
          (profilesOf { cols := [], rows := List.replicate 50 { fuente_datos := some (.s "perfiles_habilidades") } }) :=
  ⟨(claim_C8 (fun _ _ _ => Except.ok (0 : Nat))
      { cols := [], rows := List.replicate 49 { fuente_datos := some (.s "perfiles_habilidades") } }).1
      (by decide),
   (claim_C8 (fun _ _ _ => Except.ok (0 : Nat))
      { cols := [], rows := List.replicate 50 { fuente_datos := some (.s "perfiles_habilidades") } }).2
      (by decide)⟩

/-- Claim C6: generate_validation_report combines the statuses of its
sub-validations into the overall status by the fixed precedence of the
source: any failed status yields overall failed, else any warning yields
warning, else passed; in particular the overall status is always one of
failed, warning, passed (never error), and the report is produced totally,
validation never raising. -/
theorem claim_C6 (df : Limpieza.DF) (cfg : ValidationConfig) :
    (VStatus.failed ∈ (generate_validation_report df cfg).statuses →
        (generate_validation_report df cfg).overall = VStatus.failed)
    ∧ (VStatus.failed ∉ (generate_validation_report df cfg).statuses →
        VStatus.warning ∈ (generate_validation_report df cfg).statuses →
        (generate_validation_report df cfg).overall = VStatus.warning)
    ∧ (VStatus.failed ∉ (generate_validation_report df cfg).statuses →
        VStatus.warning ∉ (generate_validation_report df cfg).statuses →
        (generate_validation_report df cfg).overall = VStatus.passed)
    ∧ ((generate_validation_report df cfg).overall = VStatus.failed
        ∨ (generate_validation_report df cfg).overall = VStatus.warning
        ∨ (generate_validation_report df cfg).overall = VStatus.passed) := by
  refine ⟨?_, ?_, ?_, ?_⟩
  · intro hf
    simp only [generate_validation_report, overall_status] at hf ⊢
    rw [if_pos hf]
  · intro hf hw
    simp only [generate_validation_report, overall_status] at hf hw ⊢
    rw [if_neg hf, if_pos hw]
  · intro hf hw
    simp only [generate_validation_report, overall_status] at hf hw ⊢
    rw [if_neg hf, if_neg hw]
  · simp only [generate_validation_report, overall_status]
    by_cases hf : VStatus.failed ∈ collectedStatuses df cfg
    · rw [if_pos hf]; exact Or.inl rfl
    · rw [if_neg hf]
      by_cases hw : VStatus.warning ∈ collectedStatuses df cfg
      · rw [if_pos hw]; exact Or.inr (Or.inl rfl)
      · rw [if_neg hw]; exact Or.inr (Or.inr rfl)

/-- Claim C6, witness at a concrete input: a required column absent from
the table makes the completeness status failed and hence the overall status
failed. -/
theorem claim_C6_witness :
    (generate_validation_report { header := [("a", Limpieza.Dtype.obj)], rows := [] }
        { required_columns := some ["zz"] }).overall = VStatus.failed :=
  (claim_C6 { header := [("a", Limpieza.Dtype.obj)], rows := [] }
      { required_columns := some ["zz"] }).1 (by decide)

/-- Claim C7: every Cleaner column operation given an absent column name
returns the table unchanged without error. -/
theorem claim_C7 (df : Limpieza.DF) (c : String) (valid_categories : Option (List String))
    (h : df.hasCol c = false) :
    clean_text_column df c = df
    ∧ clean_numeric_column df c = df
    ∧ clean_categorical_column df c valid_categories = df
    ∧ clean_email_column df c = df := by
  have hn : colIdx df c = none := by
    cases hcase : colIdx df c with
    | none => rfl
    | some i => rw [Limpieza.DF.hasCol, hcase] at h; simp at h
  refine ⟨?_, ?_, ?_, ?_⟩
  · simp [clean_text_column, hn]
  · simp [clean_numeric_column, hn]
  · simp [clean_categorical_column, hn]
  · simp [clean_email_column, hn]

/-- Claim C7, witness at a concrete table without the requested column. -/
theorem claim_C7_witness :
    clean_text_column { header := [("a", Limpieza.Dtype.obj)], rows := [[some (.s "x")]] } "zz"
      = { header := [("a", Limpieza.Dtype.obj)], rows := [[some (.s "x")]] }
    ∧ clean_numeric_column { header := [("a", Limpieza.Dtype.obj)], rows := [[some (.s "x")]] } "zz"
      = { header := [("a", Limpieza.Dtype.obj)], rows := [[some (.s "x")]] }
    ∧ clean_categorical_column { header := [("a", Limpieza.Dtype.obj)], rows := [[some (.s "x")]] } "zz" none
      = { header := [("a", Limpieza.Dtype.obj)], rows := [[some (.s "x")]] }
    ∧ clean_email_column { header := [("a", Limpieza.Dtype.obj)], rows := [[some (.s "x")]] } "zz"
      = { header := [("a", Limpieza.Dtype.obj)], rows := [[some (.s "x")]] } :=
  claim_C7 { header := [("a", Limpieza.Dtype.obj)], rows := [[some (.s "x")]] } "zz" none (by decide)

theorem dedupAux_sublist {κ : Type} [DecidableEq κ] (key : α → κ) :
    ∀ (l : List α) (seen : List κ), List.Sublist (dedupFirstAux key l seen) l := by
  intro l
  induction l with
  | nil => intro seen; exact List.Sublist.refl []
  | cons a as ih =>
    intro seen
    unfold dedupFirstAux
    split
    · exact (ih seen).cons a
    · exact (ih (key a :: seen)).cons₂ a

theorem dedupAux_mem_spec {κ : Type} [DecidableEq κ] (key : α → κ) :
    ∀ (l : List α) (seen : List κ) (b : α), b ∈ dedupFirstAux key l seen →
      key b ∉ seen ∧ l.find? (fun x => decide (key x = key b)) = some b := by
  intro l
  induction l with
  | nil => intro seen b hb; simp [dedupFirstAux] at hb
  | cons a as ih =>
    intro seen b hb
    unfold dedupFirstAux at hb
    by_cases hmem : key a ∈ seen
    · rw [if_pos hmem] at hb
      obtain ⟨hnot, hfind⟩ := ih seen b hb
      have hne : key a ≠ key b := fun he => hnot (he ▸ hmem)
      refine ⟨hnot, ?_⟩
      rw [List.find?_cons_of_neg, hfind]
      simp [hne]
    · rw [if_neg hmem] at hb
      rcases List.mem_cons.mp hb with rfl | hb2
      · refine ⟨hmem, ?_⟩
        rw [List.find?_cons_of_pos]
        simp
      · obtain ⟨hnot, hfind⟩ := ih (key a :: seen) b hb2
        have hne : key a ≠ key b := fun he => hnot (by rw [← he]; exact List.mem_cons_self _ _)
        have hnotseen : key b ∉ seen := fun hx => hnot (List.mem_cons_of_mem _ hx)
        refine ⟨hnotseen, ?_⟩
        rw [List.find?_cons_of_neg, hfind]
        simp [hne]

theorem dedupAux_covers {κ : Type} [DecidableEq κ] (key : α → κ) :
    ∀ (l : List α) (seen : List κ) (a : α), a ∈ l →
      key a ∈ seen ∨ ∃ b ∈ dedupFirstAux key l seen, key b = key a := by
  intro l
  induction l with
  | nil => intro seen a ha; simp at ha
  | cons c cs ih =>
    intro seen a ha
    unfold dedupFirstAux
    by_cases hc : key c ∈ seen
    · rw [if_pos hc]
      rcases List.mem_cons.mp ha with rfl | ha2
      · exact Or.inl hc
      · exact ih seen a ha2
    · rw [if_neg hc]
      rcases List.mem_cons.mp ha with rfl | ha2
      · exact Or.inr ⟨a, List.mem_cons_self _ _, rfl⟩
      · rcases ih (key c :: seen) a ha2 with hseen | ⟨b, hb, hk⟩
        · rcases List.mem_cons.mp hseen with he | hs
          · exact Or.inr ⟨c, List.mem_cons_self _ _, he.symm⟩
          · exact Or.inl hs
        · exact Or.inr ⟨b, List.mem_cons_of_mem _ hb, hk⟩

/-- Claim C10: remove_duplicates keeps the first occurrence of each group
of rows sharing a key (the whole row, or its projection to the given
subset), removes only later occurrences, and preserves the header and the
relative order and content of the surviving rows (they form a sublist of
the input rows). -/
theorem claim_C10 (df : Limpieza.DF) (subset : Option (List String)) (dfr : Limpieza.DF)
    (h : remove_duplicates df subset = some dfr) :
    dfr.header = df.header
    ∧ List.Sublist dfr.rows df.rows
    ∧ (∀ r ∈ dfr.rows,
        df.rows.find? (fun x => decide (rowKey df subset x = rowKey df subset r)) = some r)
    ∧ (∀ r ∈ df.rows, ∃ rr ∈ dfr.rows, rowKey df subset rr = rowKey df subset r) := by
  have hdfr : dfr = dedupRows df subset := by
    cases subset with
    | none =>
      simp only [remove_duplicates] at h
      exact (Option.some.inj h).symm
    | some cs =>
      simp only [remove_duplicates] at h
      split at h
      · exact (Option.some.inj h).symm
      · cases h
  subst hdfr
  refine ⟨rfl, ?_, ?_, ?_⟩
  · exact dedupAux_sublist (rowKey df subset) df.rows []
  · intro r hr
    exact (dedupAux_mem_spec (rowKey df subset) df.rows [] r hr).2
  · intro r hr
    rcases dedupAux_covers (rowKey df subset) df.rows [] r hr with hmem | ⟨b, hb, hkey⟩
    · simp at hmem
    · exact ⟨b, hb, hkey⟩

/-- Claim C10, witness at a concrete table with one duplicated row. -/
theorem claim_C10_witness :
    Limpieza.DF.header { header := [("a", Limpieza.Dtype.obj)], rows := [[some (.s "x")], [some (.s "y")]] }
      = Limpieza.DF.header { header := [("a", Limpieza.Dtype.obj)], rows := [[some (.s "x")], [some (.s "x")], [some (.s "y")]] }
    ∧ List.Sublist
        (Limpieza.DF.rows { header := [("a", Limpieza.Dtype.obj)], rows := [[some (.s "x")], [some (.s "y")]] })
        (Limpieza.DF.rows { header := [("a", Limpieza.Dtype.obj)], rows := [[some (.s "x")], [some (.s "x")], [some (.s "y")]] })
    ∧ List.find?
        (fun x => decide (rowKey { header := [("a", Limpieza.Dtype.obj)], rows := [[some (.s "x")], [some (.s "x")], [some (.s "y")]] } none x
          = rowKey { header := [("a", Limpieza.Dtype.obj)], rows := [[some (.s "x")], [some (.s "x")], [some (.s "y")]] } none [some (.s "y")]))
        [[some (.s "x")], [some (.s "x")], [some (.s "y")]]
      = some [some (.s "y")] :=
  ⟨(claim_C10 { header := [("a", Limpieza.Dtype.obj)], rows := [[some (.s "x")], [some (.s "x")], [some (.s "y")]] } none
      { header := [("a", Limpieza.Dtype.obj)], rows := [[some (.s "x")], [some (.s "y")]] } (by decide)).1,
   (claim_C10 { header := [("a", Limpieza.Dtype.obj)], rows := [[some (.s "x")], [some (.s "x")], [some (.s "y")]] } none
      { header := [("a", Limpieza.Dtype.obj)], rows := [[some (.s "x")], [some (.s "y")]] } (by decide)).2.1,
   (claim_C10 { header := [("a", Limpieza.Dtype.obj)], rows := [[some (.s "x")], [some (.s "x")], [some (.s "y")]] } none
      { header := [("a", Limpieza.Dtype.obj)], rows := [[some (.s "x")], [some (.s "y")]] } (by decide)).2.2.1
      [some (.s "y")] (by decide)⟩

theorem list_sum_const (l : List ℚ) (a : ℚ) (h : ∀ x ∈ l, x = a) :
    l.sum = l.length * a := by
  induction l with
  | nil => simp
  | cons x xs ih =>
    have hx : x = a := h x (List.mem_cons_self _ _)
    have hxs : xs.sum = xs.length * a := ih (fun y hy => h y (List.mem_cons_of_mem _ hy))
    simp [hx, hxs]
    ring

theorem meanQ_const (l : List ℚ) (a : ℚ) (h : ∀ x ∈ l, x = a) (hne : l.length ≠ 0) :
    meanQ l = some a := by
  unfold meanQ
  rw [if_neg hne]
  congr 1
  rw [list_sum_const l a h]
  have hq : (l.length : ℚ) ≠ 0 := Nat.cast_ne_zero.mpr hne
  field_simp

theorem varQ_const (l : List ℚ) (a : ℚ) (h : ∀ x ∈ l, x = a) (h2 : 2 ≤ l.length) :
    varQ l = some 0 := by
  simp only [varQ, meanQ_const l a h (by omega : l.length ≠ 0)]
  rw [if_neg (by omega : ¬ l.length < 2)]
  congr 1
  have hz : ∀ y ∈ l.map (fun x => (x - a) ^ 2), y = 0 := by
    intro y hy
    rw [List.mem_map] at hy
    obtain ⟨x, hx, rfl⟩ := hy
    rw [h x hx]
    ring
  rw [list_sum_const _ 0 hz]
  simp

theorem nullOutliers_const (cells : List Cell) (a : ℚ)
    (h : ∀ cell ∈ cells, cell = none ∨ cell = some (.q a)) :
    nullOutliers cells = cells := by
  have hv : ∀ x ∈ qCells cells, x = a := by
    intro x hx
    rw [qCells, List.mem_filterMap] at hx
    obtain ⟨cell, hcell, hq⟩ := hx
    rcases h cell hcell with rfl | rfl
    · simp [cellQ] at hq
    · simp [cellQ, valQ] at hq
      exact hq.symm
  cases hm : meanQ (qCells cells) with
  | none => simp [nullOutliers, hm]
  | some m =>
    cases hvar : varQ (qCells cells) with
    | none => simp [nullOutliers, hm, hvar]
    | some v =>
      have hne : (qCells cells).length ≠ 0 := by
        intro h0
        unfold meanQ at hm
        rw [if_pos h0] at hm
        cases hm
      have h2 : 2 ≤ (qCells cells).length := by
        by_contra hlt
        push_neg at hlt
        simp only [varQ, hm] at hvar
        rw [if_pos hlt] at hvar
        cases hvar
      have hma : m = a := by
        have hh := meanQ_const (qCells cells) a hv hne
        rw [hm] at hh
        exact Option.some.inj hh
      have hv0 : v = 0 := by
        have hh := varQ_const (qCells cells) a hv h2
        rw [hvar] at hh
        exact Option.some.inj hh
      subst hma
      subst hv0
      simp only [nullOutliers, hm, hvar]
      conv_rhs => rw [← List.map_id cells]
      apply List.map_congr_left
      intro cell hcell
      rcases h cell hcell with rfl | rfl
      · rfl
      · simp [zOutlier]

theorem setCellsAt_self (df : Limpieza.DF) (i : Nat) :
    setCellsAt df i (dtypeAt df i) (cellsAt df i) = df := by
  obtain ⟨hdr, rws⟩ := df
  simp only [setCellsAt, dtypeAt, cellsAt, Limpieza.DF.mk.injEq]
  constructor
  · have he : ((hdr.getD i ("", Dtype.obj)).1, (hdr.getD i ("", Dtype.obj)).2)
        = hdr.getD i ("", Dtype.obj) := rfl
    rw [he, list_set_getD_self]
  · rw [List.zipWith_map_right, List.zipWith_same]
    conv_rhs => rw [← List.map_id rws]
    exact List.map_congr_left (fun row _ => list_set_getD_self row i none)

/-- Claim C9: when every non-null value of a numeric column is the same,
clean_numeric_column leaves the table unchanged: the zero sample standard
deviation nulls no value and raises nothing (the model is total; in the
source the zero divisor produces NaN z-scores, whose comparison with 3 is
false). -/
theorem claim_C9 (df : Limpieza.DF) (c : String) (i : Nat) (a : ℚ)
    (hidx : colIdx df c = some i)
    (hdt : dtypeAt df i = Dtype.float64 ∨ dtypeAt df i = Dtype.int64)
    (hall : ∀ cell ∈ cellsAt df i, cell = none ∨ cell = some (.q a)) :
    clean_numeric_column df c = df := by
  have hobj : ¬ dtypeAt df i = Dtype.obj := by
    rcases hdt with h | h <;> simp [h]
  simp only [clean_numeric_column, hidx, if_neg hobj]
  rw [if_pos (Or.symm hdt)]
  rw [nullOutliers_const (cellsAt df i) a hall, setCellsAt_self]

/-- Claim C9, witness at a concrete constant column with a null. -/
theorem claim_C9_witness :
    clean_numeric_column
        { header := [("x", Limpieza.Dtype.float64)], rows := [[some (.q 5)], [none], [some (.q 5)]] } "x"
      = { header := [("x", Limpieza.Dtype.float64)], rows := [[some (.q 5)], [none], [some (.q 5)]] } :=
  claim_C9 { header := [("x", Limpieza.Dtype.float64)], rows := [[some (.q 5)], [none], [some (.q 5)]] }
    "x" 0 5 (by decide) (Or.inl (by decide)) (by decide)

theorem nameAt_header_set :
    ∀ (l : List (String × Dtype)) (i j : Nat) (dt : Dtype),
      ((l.set i ((l.getD i ("", Dtype.obj)).1, dt)).getD j ("", Dtype.obj)).1
        = (l.getD j ("", Dtype.obj)).1 := by
  intro l
  induction l with
  | nil => intro i j dt; rfl
  | cons a as ih =>
    intro i j dt
    cases i with
    | zero =>
      cases j with
      | zero => rfl
      | succ m => rfl
    | succ n =>
      cases j with
      | zero => rfl
      | succ m =>
        show ((as.set n ((as.getD n ("", Dtype.obj)).1, dt)).getD m ("", Dtype.obj)).1
          = (as.getD m ("", Dtype.obj)).1
        exact ih n m dt

theorem findIdxOf_header_set (c : String) :
    ∀ (l : List (String × Dtype)) (i : Nat) (dt : Dtype),
      findIdxOf (fun x => x.1 == c) (l.set i ((l.getD i ("", Dtype.obj)).1, dt))
        = findIdxOf (fun x => x.1 == c) l := by
  intro l
  induction l with
  | nil => intro i dt; rfl
  | cons a as ih =>
    intro i dt
    cases i with
    | zero => rfl
    | succ n =>
      show findIdxOf (fun x => x.1 == c) (a :: as.set n ((as.getD n ("", Dtype.obj)).1, dt))
        = findIdxOf (fun x => x.1 == c) (a :: as)
      simp only [findIdxOf, ih]

theorem colIdx_mapColAt (df : Limpieza.DF) (i : Nat) (dt : Dtype) (f : Cell → Cell) (c : String) :
    colIdx (mapColAt df i dt f) c = colIdx df c := by
  simp only [colIdx, mapColAt]
  exact findIdxOf_header_set c df.header i dt

theorem colIdx_name (df : Limpieza.DF) (c : String) (i : Nat) (h : colIdx df c = some i) :
    (df.header.getD i ("", Dtype.obj)).1 = c := by
  have h2 := findIdxOf_getD (fun x => x.1 == c) df.header i ("", Dtype.obj)
    (by simpa [colIdx] using h)
  simpa only [beq_iff_eq] using h2

theorem viewCol_mapColAt_ne (df : Limpieza.DF) (i : Nat) (dt : Dtype) (f : Cell → Cell) (c : String)
    (hname : (df.header.getD i ("", Dtype.obj)).1 ≠ c) :
    viewCol (mapColAt df i dt f) c = viewCol df c := by
  have hidx : colIdx (mapColAt df i dt f) c = colIdx df c := colIdx_mapColAt df i dt f c
  cases hj : colIdx df c with
  | none => simp [viewCol, colDtype, colCells, hidx, hj]
  | some j =>
    have hji : j ≠ i := by
      intro he
      have h2 := colIdx_name df c j hj
      rw [he] at h2
      exact hname h2
    have hd : dtypeAt (mapColAt df i dt f) j = dtypeAt df j := by
      simp only [mapColAt, dtypeAt]
      rw [list_getD_set_ne _ _ _ _ _ (Ne.symm hji)]
    have hc : cellsAt (mapColAt df i dt f) j = cellsAt df j := by
      simp only [mapColAt, cellsAt]
      rw [List.map_map]
      apply List.map_congr_left
      intro row _
      exact list_getD_set_ne row i j _ none (Ne.symm hji)
    simp only [viewCol, colDtype, colCells, hidx, hj, Option.map_some']
    rw [hd, hc]

theorem viewCol_clean_categorical_ne (df : Limpieza.DF) (c2 : String)
    (cats : Option (List String)) (c : String) (h : c2 ≠ c) :
    viewCol (clean_categorical_column df c2 cats) c = viewCol df c := by
  cases hj : colIdx df c2 with
  | none => simp only [clean_categorical_column, hj]
  | some i =>
    have hn1 : (df.header.getD i ("", Dtype.obj)).1 ≠ c := by
      rw [colIdx_name df c2 i hj]
      exact h
    have hview1 : viewCol (mapColAt df i Dtype.obj catCell) c = viewCol df c :=
      viewCol_mapColAt_ne df i Dtype.obj catCell c hn1
    have hn2 : ((mapColAt df i Dtype.obj catCell).header.getD i ("", Dtype.obj)).1 ≠ c := by
      simp only [mapColAt]
      rw [nameAt_header_set]
      exact hn1
    simp only [clean_categorical_column, hj]
    by_cases hvs : cats.getD [] = []
    · rw [if_pos hvs]
      exact hview1
    · rw [if_neg hvs]
      exact (viewCol_mapColAt_ne (mapColAt df i Dtype.obj catCell) i Dtype.obj _ c hn2).trans hview1

theorem viewCol_clean_email_ne (df : Limpieza.DF) (c2 c : String) (h : c2 ≠ c) :
    viewCol (clean_email_column df c2) c = viewCol df c := by
  cases hj : colIdx df c2 with
  | none => simp only [clean_email_column, hj]
  | some i =>
    have hn1 : (df.header.getD i ("", Dtype.obj)).1 ≠ c := by
      rw [colIdx_name df c2 i hj]
      exact h
    have hn2 : ((mapColAt df i Dtype.obj emailNormCell).header.getD i ("", Dtype.obj)).1 ≠ c := by
      simp only [mapColAt]
      rw [nameAt_header_set]
      exact hn1
    simp only [clean_email_column, hj]
    exact (viewCol_mapColAt_ne (mapColAt df i Dtype.obj emailNormCell) i Dtype.obj _ c hn2).trans
      (viewCol_mapColAt_ne df i Dtype.obj emailNormCell c hn1)

theorem viewCol_dates_fold (dp : Cell → Cell) (c : String) :
    ∀ (cols : List String) (df : Limpieza.DF), c ∉ cols →
      viewCol (standardize_dates dp df cols) c = viewCol df c := by
  intro cols
  induction cols with
  | nil => intro df _; rfl
  | cons c2 cs ih =>
    intro df hnot
    have hc2 : c2 ≠ c := fun he => hnot (he ▸ List.mem_cons_self c2 cs)
    have hcs : c ∉ cs := fun hx => hnot (List.mem_cons_of_mem _ hx)
    have hstep : viewCol (match colIdx df c2 with
        | none => df
        | some i => mapColAt df i Dtype.datetime dp) c = viewCol df c := by
      cases hj : colIdx df c2 with
      | none => simp only [hj]
      | some i =>
        simp only [hj]
        exact viewCol_mapColAt_ne df i Dtype.datetime dp c
          (by rw [colIdx_name df c2 i hj]; exact hc2)
    simp only [standardize_dates, List.foldl_cons]
    exact (ih _ hcs).trans hstep

theorem viewCol_cats_fold (c : String) :
    ∀ (ps : List (String × Option (List String))) (df : Limpieza.DF), c ∉ ps.map Prod.fst →
      viewCol (ps.foldl (fun acc p => clean_categorical_column acc p.1 p.2) df) c = viewCol df c := by
  intro ps
  induction ps with
  | nil => intro df _; rfl
  | cons p2 ps2 ih =>
    intro df hnot
    have hp2 : p2.1 ≠ c := by
      intro he
      exact hnot (by rw [List.map_cons, ← he]; exact List.mem_cons_self _ _)
    have hps : c ∉ ps2.map Prod.fst := by
      intro hx
      exact hnot (by rw [List.map_cons]; exact List.mem_cons_of_mem _ hx)
    simp only [List.foldl_cons]
    exact (ih _ hps).trans (viewCol_clean_categorical_ne df p2.1 p2.2 c hp2)

theorem viewCol_emails_fold (c : String) :
    ∀ (cols : List String) (df : Limpieza.DF), c ∉ cols →
      viewCol (cols.foldl clean_email_column df) c = viewCol df c := by
  intro cols
  induction cols with
  | nil => intro df _; rfl
  | cons c2 cs ih =>
    intro df hnot
    have hc2 : c2 ≠ c := fun he => hnot (he ▸ List.mem_cons_self c2 cs)
    have hcs : c ∉ cs := fun hx => hnot (List.mem_cons_of_mem _ hx)
    simp only [List.foldl_cons]
    exact (ih _ hcs).trans (viewCol_clean_email_ne df c2 c hc2)

/-- Claim C5, amended: in clean_dataframe the per-column missing-value
strategy runs before the outlier nulling of the numeric pass, not after it,
so a value nulled as an outlier is never re-filled: for any column that the
later date, categorical and email passes do not touch, the column content
(dtype and cells, nulls included) of the full pipeline equals the content
right after the numeric pass, whose nulls therefore survive to the
output. -/
theorem claim_C5 (dateParse : Cell → Cell) (df : Limpieza.DF) (cfg : CleanConfig) (c : String)
    (h1 : c ∉ cfg.date_columns)
    (h2 : c ∉ cfg.categorical_columns.map Prod.fst)
    (h3 : c ∉ cfg.email_columns) :
    viewCol (clean_dataframe dateParse df cfg) c = viewCol (throughNumeric df cfg) c := by
  simp only [clean_dataframe]
  rw [viewCol_emails_fold c cfg.email_columns _ h3]
  rw [viewCol_cats_fold c cfg.categorical_columns _ h2]
  by_cases hd : cfg.date_columns = []
  · rw [if_pos hd]
  · rw [if_neg hd]
    exact viewCol_dates_fold dateParse c cfg.date_columns _ h1

/-- Claim C5, witness at a concrete input. -/
theorem claim_C5_witness :
    viewCol (clean_dataframe (fun cell => cell)
        { header := [("x", Limpieza.Dtype.float64)], rows := [[some (.q 1)]] } {}) "x"
      = viewCol (throughNumeric
        { header := [("x", Limpieza.Dtype.float64)], rows := [[some (.q 1)]] } {}) "x" :=
  claim_C5 (fun cell => cell)
    { header := [("x", Limpieza.Dtype.float64)], rows := [[some (.q 1)]] } {} "x"
    (by decide) (by decide) (by decide)

theorem fill_dfOrd : applyStrategyAt dfOrd "x" Strategy.mean = dfOrdFill := by
  have hc : colIdx dfOrd "x" = some 1 := by decide
  have hq : qCells (cellsAt dfOrd 1) = [0, 0, 0, 0, 0, 0, 0, 0, 0, 0, 11] := by decide
  have hm : meanQ (qCells (cellsAt dfOrd 1)) = some 1 := by
    rw [hq]; norm_num [meanQ]
  simp only [applyStrategyAt, hc, hm]
  rw [if_pos (by decide : dtypeAt dfOrd 1 = Dtype.int64 ∨ dtypeAt dfOrd 1 = Dtype.float64)]
  decide

theorem numclean_dfOrdFill : clean_numeric_column dfOrdFill "x" = dfOrdRes := by
  have hc : colIdx dfOrdFill "x" = some 1 := by decide
  have hq : qCells (cellsAt dfOrdFill 1) = [0, 0, 0, 0, 0, 0, 0, 0, 0, 0, 11, 1] := by decide
  have hm : meanQ (qCells (cellsAt dfOrdFill 1)) = some 1 := by
    rw [hq]; norm_num [meanQ]
  have hv : varQ (qCells (cellsAt dfOrdFill 1)) = some 10 := by
    rw [hq]; norm_num [varQ, meanQ]
  have houtl : nullOutliers (cellsAt dfOrdFill 1)
      = [some (.q 0), some (.q 0), some (.q 0), some (.q 0), some (.q 0), some (.q 0),
         some (.q 0), some (.q 0), some (.q 0), some (.q 0), none, some (.q 1)] := by
    simp only [nullOutliers, hm, hv]
    norm_num [zOutlier, cellsAt, dfOrdFill]
  simp only [clean_numeric_column, hc]
  rw [if_neg (by decide : ¬ dtypeAt dfOrdFill 1 = Dtype.obj)]
  rw [if_pos (by decide : dtypeAt dfOrdFill 1 = Dtype.int64 ∨ dtypeAt dfOrdFill 1 = Dtype.float64)]
  rw [houtl]
  decide

theorem numclean_dfOrd : clean_numeric_column dfOrd "x" = dfOrdNull := by
  have hc : colIdx dfOrd "x" = some 1 := by decide
  have hq : qCells (cellsAt dfOrd 1) = [0, 0, 0, 0, 0, 0, 0, 0, 0, 0, 11] := by decide
  have hm : meanQ (qCells (cellsAt dfOrd 1)) = some 1 := by
    rw [hq]; norm_num [meanQ]
  have hv : varQ (qCells (cellsAt dfOrd 1)) = some 11 := by
    rw [hq]; norm_num [varQ, meanQ]
  have houtl : nullOutliers (cellsAt dfOrd 1)
      = [some (.q 0), some (.q 0), some (.q 0), some (.q 0), some (.q 0), some (.q 0),
         some (.q 0), some (.q 0), some (.q 0), some (.q 0), none, none] := by
    simp only [nullOutliers, hm, hv]
    norm_num [zOutlier, cellsAt, dfOrd]
  simp only [clean_numeric_column, hc]
  rw [if_neg (by decide : ¬ dtypeAt dfOrd 1 = Dtype.obj)]
  rw [if_pos (by decide : dtypeAt dfOrd 1 = Dtype.int64 ∨ dtypeAt dfOrd 1 = Dtype.float64)]
  rw [houtl]
  decide

theorem fill_dfOrdNull : applyStrategyAt dfOrdNull "x" Strategy.mean = dfOrdClaimRes := by
  have hc : colIdx dfOrdNull "x" = some 1 := by decide
  have hq : qCells (cellsAt dfOrdNull 1) = [0, 0, 0, 0, 0, 0, 0, 0, 0, 0] := by decide
  have hm : meanQ (qCells (cellsAt dfOrdNull 1)) = some 0 := by
    rw [hq]; norm_num [meanQ]
  simp only [applyStrategyAt, hc, hm]
  rw [if_pos (by decide : dtypeAt dfOrdNull 1 = Dtype.int64 ∨ dtypeAt dfOrdNull 1 = Dtype.float64)]
  decide

/-- Claim C5, counterexample: on the concrete fixture the source-order
clean_dataframe leaves the outlier-nulled cell null (the missing-value fill
happened earlier), while the ordering the claim describes re-fills it with
the mean computed after nulling; the two pipelines produce different
tables, refuting the claimed order. -/
theorem claim_C5_cex :
    clean_dataframe (fun cell => cell) dfOrd cfgOrd = dfOrdRes
    ∧ clean_dataframe_claim_order (fun cell => cell) dfOrd cfgOrd = dfOrdClaimRes
    ∧ (colCells (clean_dataframe (fun cell => cell) dfOrd cfgOrd) "x").getD 10 (some (.q 99)) = none
    ∧ (colCells (clean_dataframe_claim_order (fun cell => cell) dfOrd cfgOrd) "x").getD 10
        (some (.q 99)) = some (.q 0)
    ∧ clean_dataframe (fun cell => cell) dfOrd cfgOrd
        ≠ clean_dataframe_claim_order (fun cell => cell) dfOrd cfgOrd := by
  have hmain : clean_dataframe (fun cell => cell) dfOrd cfgOrd = dfOrdRes := by
    calc clean_dataframe (fun cell => cell) dfOrd cfgOrd
        = clean_numeric_column (handle_missing_values ((remove_duplicates dfOrd none).getD dfOrd)
            [("x", Strategy.mean)]) "x" := rfl
      _ = clean_numeric_column (handle_missing_values dfOrd [("x", Strategy.mean)]) "x" := by
            rw [(by decide : (remove_duplicates dfOrd none).getD dfOrd = dfOrd)]
      _ = clean_numeric_column (applyStrategyAt (applyStrategyAt dfOrd "id" Strategy.default)
            "x" Strategy.mean) "x" := rfl
      _ = clean_numeric_column (applyStrategyAt dfOrd "x" Strategy.mean) "x" := by
            rw [(by decide : applyStrategyAt dfOrd "id" Strategy.default = dfOrd)]
      _ = clean_numeric_column dfOrdFill "x" := by rw [fill_dfOrd]
      _ = dfOrdRes := numclean_dfOrdFill
  have hclaim : clean_dataframe_claim_order (fun cell => cell) dfOrd cfgOrd = dfOrdClaimRes := by
    calc clean_dataframe_claim_order (fun cell => cell) dfOrd cfgOrd
        = handle_missing_values (clean_numeric_column ((remove_duplicates dfOrd none).getD dfOrd)
            "x") [("x", Strategy.mean)] := rfl
      _ = handle_missing_values (clean_numeric_column dfOrd "x") [("x", Strategy.mean)] := by
            rw [(by decide : (remove_duplicates dfOrd none).getD dfOrd = dfOrd)]
      _ = handle_missing_values dfOrdNull [("x", Strategy.mean)] := by rw [numclean_dfOrd]
      _ = applyStrategyAt (applyStrategyAt dfOrdNull "id" Strategy.default) "x" Strategy.mean := rfl
      _ = applyStrategyAt dfOrdNull "x" Strategy.mean := by
            rw [(by decide : applyStrategyAt dfOrdNull "id" Strategy.default = dfOrdNull)]
      _ = dfOrdClaimRes := fill_dfOrdNull
  refine ⟨hmain, hclaim, ?_, ?_, ?_⟩
  · rw [hmain]; decide
  · rw [hclaim]; decide
  · rw [hmain, hclaim]; decide

end ETL
